import Mathlib

/-
  Verification development for the tpx-signal-watch repository.

  The repository contains two per-ticker signal state machines:
  * Variant A, `analyze_three_tracks` in `3_lines_method.py`
    (3-stage "touch -> reverse -> confirm" model), and
  * Variant B, `get_mac_status` in `main.py`
    (4-stage "underwater golden cross -> zero cross -> peak tracking" model),
  plus a shared RSI indicator routine `calculate_rsi`
  (`3_lines_method.py` and `rsi_macd_low_finder_fixed.py`).

  Modelling conventions:
  * Calendar dates are integer day numbers (type ℤ); Python's
    `(a - b).days` becomes integer subtraction.
  * Indicator readings consumed by the state machines are exact
    rationals (ℚ); the floating-point aspects of the indicator engine
    itself are modelled separately with the `FVal` type below, which
    mirrors IEEE special values (NaN, ±infinity) for the operations the
    RSI computation performs.
  * The Python state dictionaries become Lean structures with the same
    field names; the tuple returned by each analysis function becomes a
    result structure carrying the new state, the returned stage, a
    status tag (one constructor per literal status string in the
    source) and the alert flag.
-/

namespace SignalWatch

/-! ## Variant A: `analyze_three_tracks` (`3_lines_method.py`) -/

/-- Per-scan inputs consumed by the Variant A state machine: the three
track-evaluator flags (`touched`, `reversed`, `confirmed` computed at
lines 212-214 of `3_lines_method.py`), the current RSI reading, and the
scan date `today`. -/
structure AInput where
  touched : Bool
  rsi : ℚ
  revFlag : Bool
  confFlag : Bool
  today : ℤ
  deriving DecidableEq

/-- Per-ticker mutable record of `3_lines_method.py` (`ticker_states`,
lines 30-38).  A `stage_history` entry `(k, d)` models the Python string
`"S{k}_{d}"` (stage tag, ISO date); since an ISO date contains no
underscore, `entry.split("_")[1]` recovers exactly the date component,
modelled here as `Prod.snd`. -/
structure AState where
  stage : ℕ
  touch_date : Option ℤ
  rsi_min : ℚ
  alert_date : Option ℤ
  stage_history : List (ℕ × ℤ)
  deriving DecidableEq

/-- Status tags, one per literal status string returned by
`analyze_three_tracks`. -/
inductive AStatus where
  | s1Touched
  | s0Waiting
  | s2Reversed
  | s0ResetTimeout
  | s1WaitRSI
  | s3BuySignal
  | s3AlreadyAlerted
  | s2WaitMACD
  | s0ResetNewCycle
  | s3InPosition
  | unknownStage
  | insufficientData
  deriving DecidableEq

/-- The value of `(state, return value)` of one `analyze_three_tracks`
call: the updated ticker state plus the returned
`(stage, status, should_alert)` triple. -/
structure AResult where
  state : AState
  stage_ret : ℕ
  status : AStatus
  alert : Bool
  deriving DecidableEq

/-- Initial Variant A record for every watched ticker
(`ticker_states` comprehension, `3_lines_method.py` lines 30-38). -/
def initStateA : AState :=
  { stage := 0, touch_date := none, rsi_min := 100, alert_date := none,
    stage_history := [] }

/-- `stage_history[-1].split("_")[1]` parsed back to a date
(`3_lines_method.py` lines 272-273): the date component of the last
history entry.  The default is irrelevant: the source guards this parse
with `len(stage_history) >= 2`. -/
def histLastDate (h : List (ℕ × ℤ)) : ℤ :=
  ((h.getLast?).map Prod.snd).getD 0

/-- Stage-1 timeout guard, `3_lines_method.py` line 245:
`state["touch_date"] and (today - state["touch_date"]).days > 10`
(`None` is falsy). -/
def stage1Timeout (s : AState) (i : AInput) : Bool :=
  match s.touch_date with
  | some d => decide (10 < i.today - d)
  | none => false

/-- Stage-2 timeout guard, `3_lines_method.py` lines 271-274:
at least two history entries and more than 15 days since the date parsed
from the last entry. -/
def stage2Timeout (s : AState) (i : AInput) : Bool :=
  decide (2 ≤ s.stage_history.length) &&
    decide (15 < i.today - histLastDate s.stage_history)

/-- Stage-3 re-arm guard, `3_lines_method.py` line 287:
`state["alert_date"] and (today - state["alert_date"]).days > 5`. -/
def stage3Rearm (s : AState) (i : AInput) : Bool :=
  match s.alert_date with
  | some d => decide (5 < i.today - d)
  | none => false

/-- One step of the Variant A state machine: `3_lines_method.py`
lines 207-297, after the data-sufficiency check (the body from
`state = ticker_states[ticker]` to the final return). -/
def stepA (s : AState) (i : AInput) : AResult :=
  if s.stage = 0 then
    if i.touched then
      { state := { stage := 1, touch_date := some i.today, rsi_min := i.rsi,
                   alert_date := s.alert_date,
                   stage_history := s.stage_history ++ [(1, i.today)] },
        stage_ret := 1, status := .s1Touched, alert := false }
    else
      { state := s, stage_ret := 0, status := .s0Waiting, alert := false }
  else if s.stage = 1 then
    -- lines 234-235: `if rsi < state["rsi_min"]: state["rsi_min"] = rsi`
    -- happens before any transition check
    let rm : ℚ := if i.rsi < s.rsi_min then i.rsi else s.rsi_min
    if i.revFlag then
      { state := { s with stage := 2, rsi_min := rm,
                          stage_history := s.stage_history ++ [(2, i.today)] },
        stage_ret := 2, status := .s2Reversed, alert := false }
    else if stage1Timeout s i then
      { state := { s with stage := 0, rsi_min := 100, stage_history := [] },
        stage_ret := 0, status := .s0ResetTimeout, alert := false }
    else
      { state := { s with rsi_min := rm },
        stage_ret := 1, status := .s1WaitRSI, alert := false }
  else if s.stage = 2 then
    if i.confFlag then
      if s.alert_date ≠ some i.today then
        { state := { s with stage := 3, alert_date := some i.today,
                            stage_history := s.stage_history ++ [(3, i.today)] },
          stage_ret := 3, status := .s3BuySignal, alert := true }
      else
        { state := { s with stage := 3,
                            stage_history := s.stage_history ++ [(3, i.today)] },
          stage_ret := 3, status := .s3AlreadyAlerted, alert := false }
    else if stage2Timeout s i then
      { state := { s with stage := 0, rsi_min := 100, stage_history := [] },
        stage_ret := 0, status := .s0ResetTimeout, alert := false }
    else
      { state := s, stage_ret := 2, status := .s2WaitMACD, alert := false }
  else if s.stage = 3 then
    if stage3Rearm s i then
      { state := { s with stage := 0, rsi_min := 100, stage_history := [] },
        stage_ret := 0, status := .s0ResetNewCycle, alert := false }
    else
      { state := s, stage_ret := 3, status := .s3InPosition, alert := false }
  else
    { state := s, stage_ret := 0, status := .unknownStage, alert := false }

/-- `analyze_three_tracks` including the data-sufficiency gate
(`3_lines_method.py` lines 202-205): `barCount` is `len(df)`
(`df.empty` is equivalent to `len(df) == 0 < 50`); with fewer than 50
bars the ticker state is left untouched and `(0, "Insufficient_Data",
False)` is returned, otherwise the state machine runs. -/
def analyze_three_tracks (s : AState) (barCount : ℕ) (i : AInput) : AResult :=
  if barCount < 50 then
    { state := s, stage_ret := 0, status := .insufficientData, alert := false }
  else
    stepA s i

/-! ## Variant B: `get_mac_status` (`main.py`) -/

/-- Per-ticker mutable record of `main.py` (`ticker_states`,
lines 20-28).  `stage` is `Option ℕ`: the source initialises it to
`None` ("need initialization") and replaces it with a concrete stage
0-3 on the first scan. -/
structure BState where
  stage : Option ℕ
  max_dif : ℚ
  alert_date : Option ℤ
  stage1_confirmed : Bool
  stage2_confirmed : Bool
  deriving DecidableEq

/-- Initial Variant B record for every watched ticker (`ticker_states`
comprehension, `main.py` lines 20-28). -/
def initStateB : BState :=
  { stage := none, max_dif := 0, alert_date := none,
    stage1_confirmed := false, stage2_confirmed := false }

/-- Per-scan inputs of the Variant B machine: the MACD DIF and DEA
series (chronological, exact rationals) and the scan date.  The source
computes both series from the close prices and then works with
`dif_series`, `dea_series`, their last elements and `today`
(`main.py` lines 134-144). -/
structure BInput where
  difSeries : List ℚ
  deaSeries : List ℚ
  today : ℤ
  deriving DecidableEq

/-- `current_dif = float(dif_series.iloc[-1])` (`main.py` line 140).
The default is irrelevant: the caller guarantees at least 30 bars. -/
def curDif (i : BInput) : ℚ := (i.difSeries.getLast?).getD 0

/-- `current_dea = float(dea_series.iloc[-1])` (`main.py` line 141). -/
def curDea (i : BInput) : ℚ := (i.deaSeries.getLast?).getD 0

/-- Status tags, one per literal status string returned by
`get_mac_status`. -/
inductive BStatus where
  | stage0ResetDifBelowZero
  | stage1UnderwaterGoldCross
  | stage0Waiting
  | stage2DifCrossedZero
  | stage0ResetDifBelowDea
  | stage1WaitingDifCrossZero
  | stage3DeaCrossedZero
  | stage2WaitingDeaCrossZero
  | signalDeaRetraced50pct
  | stage3AlreadyAlertedToday
  | stage3Tracking
  | unknownStage
  | dataInsufficient
  deriving DecidableEq

/-- The value of `(state, return value)` of one `get_mac_status` call. -/
structure BResult where
  state : BState
  status : BStatus
  alert : Bool
  deriving DecidableEq

/-- Index list of the backward scans in `main.py`
(`range(len(series) - 1, max(0, len(series) - 100), -1)`, lines 65,
101, 201): the indices `max(0, n-100) < j ≤ n-1` in descending order.
Natural subtraction `n - 100` is exactly `max(0, n-100)`. -/
def descIdx (n : ℕ) : List ℕ :=
  ((List.range n).filter (fun j => decide (n - 100 < j))).reverse

/-- The backward scan of `detect_current_stage` (`main.py` lines 62-77):
walks the index list, breaking at the first index whose DIF value is
negative (reporting whether DEA < DIF there, i.e. an underwater golden
cross), while tracking the latest assignment to `dif_crossed_zero_idx`
(the last index visited where DIF crossed zero from below).  Returns
`(underwater_gc_found, dif_crossed_zero_idx)`. -/
def detectScanAux (ds de : List ℚ) : Option ℕ → List ℕ → Bool × Option ℕ
  | acc, [] => (false, acc)
  | acc, j :: rest =>
    let dif_val := ds.getD j 0
    let dea_val := de.getD j 0
    if dif_val < 0 then
      (decide (dea_val < dif_val), acc)
    else
      let acc2 := if 0 < j ∧ ds.getD (j - 1) 0 < 0 ∧ 0 < dif_val then some j else acc
      detectScanAux ds de acc2 rest

/-- `pandas.Series.max` over a slice (`main.py` lines 91, 207).  The
empty case never occurs at the call sites (the slice starts at a valid
index). -/
def seriesMax : List ℚ → ℚ
  | [] => 0
  | x :: xs => xs.foldl max x

/-- The backward zero-crossing search of the 2→3 transition
(`main.py` lines 200-204): the first index `j` in descending order with
`j > 0`, `dif[j-1] < 0` and `dif[j] > 0`. -/
def difCrossIdx (ds : List ℚ) : Option ℕ :=
  (descIdx ds.length).find? fun j =>
    decide (0 < j) && decide (ds.getD (j - 1) 0 < 0) && decide (0 < ds.getD j 0)

/-- `detect_current_stage` (`main.py` lines 51-113): infers the initial
stage (and the historical peak DIF for stage 3) from the indicator
series on the first observation of a ticker. -/
def detect_current_stage (current_dif current_dea : ℚ)
    (dif_series dea_series : List ℚ) : ℕ × ℚ :=
  if 0 < current_dif ∧ 0 < current_dea then
    match detectScanAux dif_series dea_series none (descIdx dif_series.length) with
    | (true, some ci) =>
      -- find when DEA crossed zero, searching forward from the DIF crossing
      match ((List.range dea_series.length).filter (fun j => decide (ci ≤ j))).find?
          (fun j => decide (0 < dea_series.getD j 0)) with
      | some dci => (3, seriesMax (dif_series.drop dci))
      | none => (2, 0)
    | _ => (0, 0)
  else if 0 < current_dif ∧ current_dea < 0 then
    if (descIdx dif_series.length).any (fun j =>
        decide (dif_series.getD j 0 < 0) &&
          decide (dea_series.getD j 0 < dif_series.getD j 0)) then
      (2, 0)
    else
      (0, 0)
  else if current_dea < current_dif ∧ current_dif < 0 then
    (1, 0)
  else
    (0, 0)

/-- First-run stage detection (`main.py` lines 146-159): when `stage`
is `None`, seed it (and, for stage 3, the historical peak DIF and the
confirmation flags) from `detect_current_stage`; otherwise the state is
untouched. -/
def stepBInit (s : BState) (i : BInput) : BState :=
  match s.stage with
  | none =>
    let dh := detect_current_stage (curDif i) (curDea i) i.difSeries i.deaSeries
    if dh.1 = 3 then
      { s with stage := some 3, max_dif := dh.2,
               stage1_confirmed := true, stage2_confirmed := true }
    else if dh.1 = 2 then
      { s with stage := some 2, stage1_confirmed := true }
    else if dh.1 = 1 then
      { s with stage := some 1, stage1_confirmed := true }
    else
      { s with stage := some dh.1 }
  | some _ => s

/-- The 4-stage machine proper (`main.py` lines 161-234): the global
DIF<0 reset checked first, then the stage-specific rules keyed on
`current_stage` (the stage read after first-run detection). -/
def stepBMain (s0 : BState) (i : BInput) : BResult :=
  let current_dif := curDif i
  let current_dea := curDea i
  if current_dif < 0 then
    -- lines 165-172: global reset condition, checked before the stages
    { state := { stage := some 0, max_dif := 0, alert_date := none,
                 stage1_confirmed := false, stage2_confirmed := false },
      status := .stage0ResetDifBelowZero, alert := false }
  else if s0.stage = some 0 then
    if current_dea < current_dif ∧ current_dif < 0 then
      { state := { s0 with stage := some 1, stage1_confirmed := true },
        status := .stage1UnderwaterGoldCross, alert := false }
    else
      { state := s0, status := .stage0Waiting, alert := false }
  else if s0.stage = some 1 then
    if 0 < current_dif then
      { state := { s0 with stage := some 2, stage2_confirmed := true },
        status := .stage2DifCrossedZero, alert := false }
    else if current_dif < current_dea then
      { state := { s0 with stage := some 0, stage1_confirmed := false },
        status := .stage0ResetDifBelowDea, alert := false }
    else
      { state := s0, status := .stage1WaitingDifCrossZero, alert := false }
  else if s0.stage = some 2 then
    if 0 < current_dea then
      let m : ℚ :=
        match difCrossIdx i.difSeries with
        | some ci => seriesMax (i.difSeries.drop ci)
        | none => current_dif
      { state := { s0 with stage := some 3, max_dif := m },
        status := .stage3DeaCrossedZero, alert := false }
    else
      { state := s0, status := .stage2WaitingDeaCrossZero, alert := false }
  else if s0.stage = some 3 then
    -- lines 216-218: update the DIF peak before the retracement check
    let s1 := if s0.max_dif < current_dif then { s0 with max_dif := current_dif } else s0
    if 0 < s1.max_dif then
      if current_dea ≤ s1.max_dif / 2 then
        if s1.alert_date ≠ some i.today then
          { state := { s1 with alert_date := some i.today },
            status := .signalDeaRetraced50pct, alert := true }
        else
          { state := s1, status := .stage3AlreadyAlertedToday, alert := false }
      else
        { state := s1, status := .stage3Tracking, alert := false }
    else
      { state := s1, status := .stage3Tracking, alert := false }
  else
    { state := s0, status := .unknownStage, alert := false }

/-- One step of the Variant B state machine: `get_mac_status`
(`main.py` lines 140-234) after the data-sufficiency check. -/
def stepB (s : BState) (i : BInput) : BResult :=
  stepBMain (stepBInit s i) i

/-- `get_mac_status` including the data-sufficiency gate
(`main.py` lines 129-131): `barCount` is `len(df)` (`df.empty` is
equivalent to `len(df) == 0 < 30`); with fewer than 30 bars the ticker
state is left untouched and `("Data_Insufficient", False)` is returned,
otherwise the state machine runs. -/
def get_mac_status (s : BState) (barCount : ℕ) (i : BInput) : BResult :=
  if barCount < 30 then
    { state := s, status := .dataInsufficient, alert := false }
  else
    stepB s i

/-! ## RSI indicator (`calculate_rsi` in `3_lines_method.py` lines 58-65
and, identically, `rsi_macd_low_finder_fixed.py` lines 23-38)

The computation runs on IEEE doubles where division by zero yields
signed infinity (for a nonzero numerator) or NaN (for `0.0/0.0`), and
NaN propagates through arithmetic.  `FVal` models a double as an exact
rational, an infinity, or NaN; the arithmetic operations below follow
the IEEE rules for those cases (signed zero is not modelled: the RSI
computation never divides by a negative zero).  All concrete values the
claims touch (0, 100, price differences) are exact, so no rounding
model is needed. -/

/-- A floating-point value: NaN, +infinity, -infinity, or a finite
value modelled as an exact rational. -/
inductive FVal where
  | nan : FVal
  | inf : FVal
  | ninf : FVal
  | fin : ℚ → FVal
  deriving DecidableEq

/-- IEEE negation. -/
def FVal.neg : FVal → FVal
  | .nan => .nan
  | .inf => .ninf
  | .ninf => .inf
  | .fin a => .fin (-a)

/-- IEEE addition on the modelled values. -/
def FVal.add : FVal → FVal → FVal
  | .nan, _ => .nan
  | _, .nan => .nan
  | .inf, .ninf => .nan
  | .ninf, .inf => .nan
  | .inf, _ => .inf
  | _, .inf => .inf
  | .ninf, _ => .ninf
  | _, .ninf => .ninf
  | .fin a, .fin b => .fin (a + b)

/-- IEEE subtraction. -/
def FVal.sub (x y : FVal) : FVal := x.add y.neg

/-- IEEE division on the modelled values: a nonzero finite value
divided by zero gives a signed infinity, `0/0` gives NaN. -/
def FVal.div : FVal → FVal → FVal
  | .nan, _ => .nan
  | _, .nan => .nan
  | .inf, .inf => .nan
  | .inf, .ninf => .nan
  | .ninf, .inf => .nan
  | .ninf, .ninf => .nan
  | .inf, .fin b => if b < 0 then .ninf else .inf
  | .ninf, .fin b => if b < 0 then .inf else .ninf
  | _, .inf => .fin 0
  | _, .ninf => .fin 0
  | .fin a, .fin b =>
    if b = 0 then
      if a = 0 then .nan else if 0 < a then .inf else .ninf
    else
      .fin (a / b)

/-- The gain series `delta.where(delta > 0, 0)`: position 0 holds 0
(the NaN produced by `diff()` fails the `> 0` test and is replaced by
the fill value), position `i > 0` holds `max(p[i] - p[i-1], 0)`. -/
def gains (prices : List ℚ) : List ℚ :=
  (List.range prices.length).map fun j =>
    if j = 0 then 0 else max (prices.getD j 0 - prices.getD (j - 1) 0) 0

/-- The loss series `-delta.where(delta < 0, 0)`: position 0 holds 0,
position `i > 0` holds `max(p[i-1] - p[i], 0)`. -/
def losses (prices : List ℚ) : List ℚ :=
  (List.range prices.length).map fun j =>
    if j = 0 then 0 else max (prices.getD (j - 1) 0 - prices.getD j 0) 0

/-- `Series.rolling(window=period).mean()`: NaN during the warm-up
(fewer than `period` values available), otherwise the exact mean of the
trailing `period`-value window. -/
def rollMean (xs : List ℚ) (period : ℕ) : List FVal :=
  (List.range xs.length).map fun j =>
    if j + 1 < period then FVal.nan
    else FVal.fin ((((xs.drop (j + 1 - period)).take period).sum) / (period : ℚ))

/-- The pointwise body of `calculate_rsi`:
`rs = gain / loss; rsi = 100 - (100 / (1 + rs))` under IEEE
arithmetic. -/
def rsiPoint (g l : FVal) : FVal :=
  (FVal.fin 100).sub ((FVal.fin 100).div ((FVal.fin 1).add (g.div l)))

/-- `calculate_rsi(prices, period)`: the RSI series of the close-price
series.  Both copies of the source function are character-for-character
the same computation. -/
def calculate_rsi (prices : List ℚ) (period : ℕ) : List FVal :=
  (List.range prices.length).map fun j =>
    rsiPoint ((rollMean (gains prices) period).getD j FVal.nan)
      ((rollMean (losses prices) period).getD j FVal.nan)

/-! ## Temporal notions used by the claims -/

/-- Number of alerts fired by a fixed ticker along a sequence of
Variant A evaluation steps, one state threading through all of them
(scan order, §5 of the spec). -/
def alertCountA : AState → List AInput → ℕ
  | _, [] => 0
  | s, i :: rest =>
    (if (stepA s i).alert then 1 else 0) + alertCountA (stepA s i).state rest

/-- Number of alerts fired by a fixed ticker along a sequence of
Variant B evaluation steps. -/
def alertCountB : BState → List BInput → ℕ
  | _, [] => 0
  | s, i :: rest =>
    (if (stepB s i).alert then 1 else 0) + alertCountB (stepB s i).state rest

/-- Variant A states reachable during the process lifetime: the initial
record plus everything successive evaluation steps can produce (a
failed or insufficient-data scan leaves the state untouched, so it adds
no further states). -/
inductive ReachA : AState → Prop where
  | init : ReachA initStateA
  | step : ∀ (s : AState) (i : AInput), ReachA s → ReachA (stepA s i).state

/-! ## Helper lemmas -/

/-- The fully reset Variant B record produced by the global DIF<0 rule. -/
def bReset : BState :=
  { stage := some 0, max_dif := 0, alert_date := none,
    stage1_confirmed := false, stage2_confirmed := false }

/-- When the current DIF is negative, a Variant B step is the global
reset, whatever the stage (`main.py` lines 165-172). -/
theorem stepB_globalReset (s : BState) (i : BInput) (h : curDif i < 0) :
    stepB s i = { state := bReset, status := .stage0ResetDifBelowZero,
                  alert := false } := by
  simp [stepB, stepBMain, bReset, h]

/-- Any Variant A step that moves a nonzero stage to stage 0 clears
`rsi_min` to 100 and empties `stage_history`: the only such moves are
the stage-1 timeout, the stage-2 timeout and the stage-3 re-arm. -/
theorem stepA_to_zero_clears (s : AState) (i : AInput) (h : s.stage ≠ 0)
    (h0 : (stepA s i).state.stage = 0) :
    (stepA s i).state.rsi_min = 100 ∧ (stepA s i).state.stage_history = [] := by
  revert h0
  unfold stepA
  rw [if_neg h]
  split_ifs <;> intro h0 <;> simp_all

/-! ## Claims -/

/-- C1: the claim says a Variant B state in stage 0 observing
DEA < DIF < 0 transitions to stage 1 (the underwater golden cross), as
the source's own stage documentation describes.  Evaluating the step at
such an input shows the global DIF<0 reset (checked first) fires
instead: the ticker stays in stage 0 and the 0→1 rule is unreachable,
since its guard requires DIF < 0. -/
theorem C1_underwater_cross_shadowed :
    ((-2 : ℚ) < -1 ∧ (-1 : ℚ) < 0) ∧
    curDif { difSeries := [-1], deaSeries := [-2], today := 0 } = -1 ∧
    curDea { difSeries := [-1], deaSeries := [-2], today := 0 } = -2 ∧
    (stepB { stage := some 0, max_dif := 0, alert_date := none,
             stage1_confirmed := false, stage2_confirmed := false }
        { difSeries := [-1], deaSeries := [-2], today := 0 }).state.stage = some 0 ∧
    (stepB { stage := some 0, max_dif := 0, alert_date := none,
             stage1_confirmed := false, stage2_confirmed := false }
        { difSeries := [-1], deaSeries := [-2], today := 0 }).status
      = BStatus.stage0ResetDifBelowZero := by
  decide

/-- C4: in Variant B, whenever the current DIF is below zero the step
forces stage 0 and performs the full reset (peak DIF cleared to 0,
alert date cleared), fires no alert, and ignores the DEA value and the
previous stage entirely. -/
theorem C4_global_reset (s : BState) (i : BInput) (h : curDif i < 0) :
    stepB s i = { state := { stage := some 0, max_dif := 0, alert_date := none,
                             stage1_confirmed := false, stage2_confirmed := false },
                  status := .stage0ResetDifBelowZero, alert := false } :=
  stepB_globalReset s i h

/-- Witness for C4 at a concrete input: stage 3 with a positive DEA and
DIF dropping to -1. -/
theorem C4_global_reset_witness :
    curDif { difSeries := [2, -1], deaSeries := [1], today := 5 } < 0 ∧
    stepB { stage := some 3, max_dif := 4, alert_date := some 5,
            stage1_confirmed := true, stage2_confirmed := true }
        { difSeries := [2, -1], deaSeries := [1], today := 5 }
      = { state := { stage := some 0, max_dif := 0, alert_date := none,
                     stage1_confirmed := false, stage2_confirmed := false },
          status := .stage0ResetDifBelowZero, alert := false } :=
  ⟨by decide, C4_global_reset _ _ (by decide)⟩

/-- C2 counterexample: a Variant A ticker in stage 1, 11 days past its
touch date (timeout exceeded), sees the RSI-reversal condition hold on
the same step: the machine advances to stage 2 instead of resetting to
stage 0, because the progress check runs before the timeout check. -/
theorem C2_timeout_counterexample :
    stage1Timeout
        { stage := 1, touch_date := some 0, rsi_min := 50, alert_date := none,
          stage_history := [(1, 0)] }
        { touched := false, rsi := 50, revFlag := true, confFlag := false,
          today := 11 } = true ∧
    (stepA { stage := 1, touch_date := some 0, rsi_min := 50, alert_date := none,
             stage_history := [(1, 0)] }
        { touched := false, rsi := 50, revFlag := true, confFlag := false,
          today := 11 }).state.stage ≠ 0 ∧
    (stepA { stage := 1, touch_date := some 0, rsi_min := 50, alert_date := none,
             stage_history := [(1, 0)] }
        { touched := false, rsi := 50, revFlag := true, confFlag := false,
          today := 11 }).state.stage = 2 := by
  decide

/-- C2 amended: once the stage timeout is exceeded, a Variant A
evaluation step resets the ticker to stage 0 (with the full reset)
provided the stage's progress condition (RSI reversal in stage 1,
MACD confirm in stage 2) does not also hold on that step; the progress
condition takes priority over the timeout. -/
theorem C2_timeout_resets (s : AState) (i : AInput) :
    (s.stage = 1 → i.revFlag = false → stage1Timeout s i = true →
      (stepA s i).state.stage = 0 ∧ (stepA s i).state.rsi_min = 100 ∧
        (stepA s i).state.stage_history = []) ∧
    (s.stage = 2 → i.confFlag = false → stage2Timeout s i = true →
      (stepA s i).state.stage = 0 ∧ (stepA s i).state.rsi_min = 100 ∧
        (stepA s i).state.stage_history = []) := by
  constructor <;> intro h1 h2 h3 <;> simp [stepA, h1, h2, h3]

/-- Witness for the amended C2: stage 1, 11 days past the touch date,
no reversal on this step, resets fully. -/
theorem C2_timeout_resets_witness :
    (stepA { stage := 1, touch_date := some 0, rsi_min := 50, alert_date := none,
             stage_history := [(1, 0)] }
        { touched := false, rsi := 50, revFlag := false, confFlag := false,
          today := 12 }).state.stage = 0 ∧
    (stepA { stage := 1, touch_date := some 0, rsi_min := 50, alert_date := none,
             stage_history := [(1, 0)] }
        { touched := false, rsi := 50, revFlag := false, confFlag := false,
          today := 12 }).state.rsi_min = 100 ∧
    (stepA { stage := 1, touch_date := some 0, rsi_min := 50, alert_date := none,
             stage_history := [(1, 0)] }
        { touched := false, rsi := 50, revFlag := false, confFlag := false,
          today := 12 }).state.stage_history = [] :=
  (C2_timeout_resets _ _).1 rfl rfl (by decide)

/-- C6 counterexample: a Variant A step that returns the ticker to
stage 0 (stage-1 timeout at 13 days) leaves `touch_date` holding its
old value instead of clearing it to nil. -/
theorem C6_touch_date_counterexample :
    (stepA { stage := 1, touch_date := some 0, rsi_min := 50, alert_date := none,
             stage_history := [(1, 0)] }
        { touched := false, rsi := 50, revFlag := false, confFlag := false,
          today := 13 }).state.stage = 0 ∧
    (stepA { stage := 1, touch_date := some 0, rsi_min := 50, alert_date := none,
             stage_history := [(1, 0)] }
        { touched := false, rsi := 50, revFlag := false, confFlag := false,
          today := 13 }).state.touch_date = some 0 ∧
    (stepA { stage := 1, touch_date := some 0, rsi_min := 50, alert_date := none,
             stage_history := [(1, 0)] }
        { touched := false, rsi := 50, revFlag := false, confFlag := false,
          today := 13 }).state.touch_date ≠ none := by
  decide

/-- C6 amended: `touch_date` is set (to today) exactly on the 0→1
transition; every other step — including the 1→2 and 2→3 transitions
and every reset back to stage 0 — leaves it unchanged, so it is never
cleared to nil. -/
theorem C6_touch_date_behaviour (s : AState) (i : AInput) :
    (s.stage = 0 → i.touched = true →
      (stepA s i).state.touch_date = some i.today) ∧
    (s.stage = 0 → i.touched = false →
      (stepA s i).state.touch_date = s.touch_date) ∧
    (s.stage ≠ 0 → (stepA s i).state.touch_date = s.touch_date) := by
  refine ⟨fun h1 h2 => by simp [stepA, h1, h2],
          fun h1 h2 => by simp [stepA, h1, h2],
          fun h1 => ?_⟩
  unfold stepA
  rw [if_neg h1]
  split_ifs <;> rfl

/-- Witness for the amended C6: the 0→1 transition stamps today. -/
theorem C6_touch_date_behaviour_witness :
    (stepA initStateA
        { touched := true, rsi := 25, revFlag := false, confFlag := false,
          today := 3 }).state.touch_date = some 3 :=
  (C6_touch_date_behaviour initStateA
      { touched := true, rsi := 25, revFlag := false, confFlag := false,
        today := 3 }).1 rfl rfl

/-- C9 counterexample: the claim's insufficient-data threshold (30
bars) is Variant B's; Variant A (`3_lines_method.py` line 204) requires
50.  A 40-bar series, which the claim says proceeds to indicator
computation, is reported as insufficient data by Variant A. -/
theorem C9_threshold_counterexample :
    ¬ (40 < 30) ∧
    analyze_three_tracks initStateA 40
        { touched := true, rsi := 25, revFlag := true, confFlag := true,
          today := 0 }
      = { state := initStateA, stage_ret := 0, status := .insufficientData,
          alert := false } := by
  decide

/-- C9 amended: each variant reports insufficient data below its own
threshold — 50 bars in Variant A, 30 bars in Variant B — returning an
insufficient-data status with no alert and the stored state completely
unchanged; at or above the threshold the evaluation runs the state
machine instead of reporting insufficient data. -/
theorem C9_insufficient_data (sA : AState) (sB : BState) (n : ℕ)
    (iA : AInput) (iB : BInput) :
    (n < 50 →
      analyze_three_tracks sA n iA
        = { state := sA, stage_ret := 0, status := .insufficientData,
            alert := false }) ∧
    (¬ n < 50 → analyze_three_tracks sA n iA = stepA sA iA) ∧
    (n < 30 →
      get_mac_status sB n iB
        = { state := sB, status := .dataInsufficient, alert := false }) ∧
    (¬ n < 30 → get_mac_status sB n iB = stepB sB iB) := by
  refine ⟨fun h => ?_, fun h => ?_, fun h => ?_, fun h => ?_⟩ <;>
    simp [analyze_three_tracks, get_mac_status, h]

/-- Witness for the amended C9: 49 bars are insufficient for Variant A,
29 for Variant B, while 30 bars let Variant B run the machine. -/
theorem C9_insufficient_data_witness :
    analyze_three_tracks initStateA 49
        { touched := true, rsi := 25, revFlag := false, confFlag := false,
          today := 0 }
      = { state := initStateA, stage_ret := 0, status := .insufficientData,
          alert := false } ∧
    get_mac_status initStateB 29 { difSeries := [1], deaSeries := [1], today := 0 }
      = { state := initStateB, status := .dataInsufficient, alert := false } ∧
    get_mac_status initStateB 30 { difSeries := [1], deaSeries := [1], today := 0 }
      = stepB initStateB { difSeries := [1], deaSeries := [1], today := 0 } :=
  ⟨(C9_insufficient_data initStateA initStateB 49
      { touched := true, rsi := 25, revFlag := false, confFlag := false,
        today := 0 }
      { difSeries := [1], deaSeries := [1], today := 0 }).1 (by decide),
   (C9_insufficient_data initStateA initStateB 29
      { touched := true, rsi := 25, revFlag := false, confFlag := false,
        today := 0 }
      { difSeries := [1], deaSeries := [1], today := 0 }).2.2.1 (by decide),
   (C9_insufficient_data initStateA initStateB 30
      { touched := true, rsi := 25, revFlag := false, confFlag := false,
        today := 0 }
      { difSeries := [1], deaSeries := [1], today := 0 }).2.2.2 (by decide)⟩

/-- C7: every evaluation step that resets a ticker to stage 0 — in
Variant A the stage-1 timeout, the stage-2 timeout and the stage-3
re-arm are the only steps moving a nonzero stage to 0 — leaves the
extremum at its sentinel and the history empty: `rsi_min = 100` and
`stage_history = []` in Variant A, `max_dif = 0` (and `alert_date`
cleared) after Variant B's global DIF<0 reset.  (Variant B keeps no
history log.) -/
theorem C7_reset_clears (sA : AState) (iA : AInput) (sB : BState) (iB : BInput)
    (hA : sA.stage = 1 ∨ sA.stage = 2 ∨ sA.stage = 3)
    (hA0 : (stepA sA iA).state.stage = 0)
    (hB : curDif iB < 0) :
    (stepA sA iA).state.rsi_min = 100 ∧
    (stepA sA iA).state.stage_history = [] ∧
    (stepB sB iB).state.max_dif = 0 ∧
    (stepB sB iB).state.alert_date = none := by
  have hne : sA.stage ≠ 0 := by rcases hA with h | h | h <;> simp [h]
  have hA2 := stepA_to_zero_clears sA iA hne hA0
  have hB2 := stepB_globalReset sB iB hB
  exact ⟨hA2.1, hA2.2, by rw [hB2]; rfl, by rw [hB2]; rfl⟩

/-- Witness for C7: a stage-2 timeout in Variant A (17 days past the
stage-2 entry recorded in the history) and a global DIF<0 reset in
Variant B. -/
theorem C7_reset_clears_witness :
    (stepA { stage := 2, touch_date := some 0, rsi_min := 40, alert_date := none,
             stage_history := [(1, 0), (2, 1)] }
        { touched := false, rsi := 50, revFlag := false, confFlag := false,
          today := 18 }).state.rsi_min = 100 ∧
    (stepA { stage := 2, touch_date := some 0, rsi_min := 40, alert_date := none,
             stage_history := [(1, 0), (2, 1)] }
        { touched := false, rsi := 50, revFlag := false, confFlag := false,
          today := 18 }).state.stage_history = [] ∧
    (stepB { stage := some 1, max_dif := 7, alert_date := some 2,
             stage1_confirmed := true, stage2_confirmed := false }
        { difSeries := [-3], deaSeries := [-4], today := 18 }).state.max_dif = 0 ∧
    (stepB { stage := some 1, max_dif := 7, alert_date := some 2,
             stage1_confirmed := true, stage2_confirmed := false }
        { difSeries := [-3], deaSeries := [-4], today := 18 }).state.alert_date
      = none :=
  C7_reset_clears _ _ _ _ (Or.inr (Or.inl rfl)) (by decide) (by decide)

/-- C5 counterexample: in Variant B the stored stage starts as `None`
("need initialization", `main.py` line 22), which is outside the
declared finite stage set {0, 1, 2, 3}; the claim fails at the initial
state at process start. -/
theorem C5_initial_stage_counterexample :
    initStateB.stage = none ∧
    initStateB.stage ∉ [some 0, some 1, some 2, some 3] := by
  decide

/-- `detect_current_stage` only ever reports a stage in 0-3. -/
theorem detect_stage_mem (a b : ℚ) (ds de : List ℚ) :
    (detect_current_stage a b ds de).1 ∈ [0, 1, 2, 3] := by
  unfold detect_current_stage
  repeat' split
  all_goals simp

/-- First-run detection leaves an already-set stage record untouched. -/
theorem stepBInit_of_some (s : BState) (i : BInput) (k : ℕ)
    (h : s.stage = some k) : stepBInit s i = s := by
  unfold stepBInit
  rw [h]

/-- First-run detection never touches `alert_date`. -/
theorem stepBInit_alert_date (s : BState) (i : BInput) :
    (stepBInit s i).alert_date = s.alert_date := by
  obtain ⟨st, md, ad, c1, c2⟩ := s
  cases st with
  | none => unfold stepBInit; dsimp only; split_ifs <;> rfl
  | some k => rfl

/-- After first-run detection the stored stage is a concrete stage
0-3. -/
theorem stepBInit_stage_mem (s : BState) (i : BInput)
    (h : s.stage = none ∨ s.stage ∈ [some 0, some 1, some 2, some 3]) :
    (stepBInit s i).stage ∈ [some 0, some 1, some 2, some 3] := by
  rcases h with h | h
  · have hd := detect_stage_mem (curDif i) (curDea i) i.difSeries i.deaSeries
    obtain ⟨st, md, ad, c1, c2⟩ := s
    cases h
    unfold stepBInit
    dsimp only
    split_ifs <;> simp_all
  · obtain ⟨k, hk⟩ : ∃ k, s.stage = some k := by
      cases hs : s.stage with
      | none => rw [hs] at h; simp at h
      | some k => exact ⟨k, rfl⟩
    rw [stepBInit_of_some s i k hk]
    exact h

set_option maxHeartbeats 1000000 in
/-- The 4-stage machine proper keeps the stage in 0-3. -/
theorem stepBMain_stage_mem (s0 : BState) (i : BInput)
    (h : s0.stage ∈ [some 0, some 1, some 2, some 3]) :
    (stepBMain s0 i).state.stage ∈ [some 0, some 1, some 2, some 3] := by
  obtain ⟨st, md, ad, c1, c2⟩ := s0
  simp only [List.mem_cons, List.not_mem_nil, or_false] at h
  rcases h with h | h | h | h <;> subst h <;>
    (simp only [stepBMain]; split_ifs <;> simp_all)

/-- A Variant A step keeps the stage in 0-3. -/
theorem stepA_stage_mem (s : AState) (i : AInput)
    (h : s.stage ∈ [0, 1, 2, 3]) :
    (stepA s i).state.stage ∈ [0, 1, 2, 3] := by
  simp only [stepA]
  split_ifs <;> simp_all

/-- C5 amended: in Variant A the stage starts at 0 and every evaluation
step keeps it in the declared set {0, 1, 2, 3}.  In Variant B the stage
starts as the uninitialized sentinel `None`; after every evaluation
step with sufficient data it lies in {0, 1, 2, 3}, and insufficient-data
scans leave the stored state (hence its stage) unchanged in both
variants. -/
theorem C5_stage_in_range (sA : AState) (iA : AInput) (sB : BState)
    (iB : BInput) (nA nB : ℕ)
    (hA : sA.stage ∈ [0, 1, 2, 3])
    (hB : sB.stage = none ∨ sB.stage ∈ [some 0, some 1, some 2, some 3]) :
    initStateA.stage ∈ [0, 1, 2, 3] ∧
    (stepA sA iA).state.stage ∈ [0, 1, 2, 3] ∧
    (stepB sB iB).state.stage ∈ [some 0, some 1, some 2, some 3] ∧
    (nA < 50 → (analyze_three_tracks sA nA iA).state = sA) ∧
    (nB < 30 → (get_mac_status sB nB iB).state = sB) := by
  refine ⟨by decide, stepA_stage_mem sA iA hA,
          stepBMain_stage_mem _ iB (stepBInit_stage_mem sB iB hB),
          fun h => ?_, fun h => ?_⟩
  · simp [analyze_three_tracks, h]
  · simp [get_mac_status, h]

/-- Witness for the amended C5 at concrete inputs. -/
theorem C5_stage_in_range_witness :
    initStateA.stage ∈ [0, 1, 2, 3] ∧
    (stepA initStateA
        { touched := false, rsi := 45, revFlag := false, confFlag := false,
          today := 1 }).state.stage ∈ [0, 1, 2, 3] ∧
    (stepB initStateB
        { difSeries := [1], deaSeries := [-1], today := 1 }).state.stage
      ∈ [some 0, some 1, some 2, some 3] ∧
    (10 < 50 → (analyze_three_tracks initStateA 10
        { touched := false, rsi := 45, revFlag := false, confFlag := false,
          today := 1 }).state = initStateA) ∧
    (10 < 30 → (get_mac_status initStateB 10
        { difSeries := [1], deaSeries := [-1], today := 1 }).state
      = initStateB) :=
  C5_stage_in_range initStateA
    { touched := false, rsi := 45, revFlag := false, confFlag := false,
      today := 1 }
    initStateB { difSeries := [1], deaSeries := [-1], today := 1 } 10 10
    (by decide) (Or.inl rfl)

/-- A Variant A alert stamps today into `alert_date`, and can only fire
when no alert was already recorded for today. -/
theorem stepA_alert_stamps (s : AState) (i : AInput)
    (h : (stepA s i).alert = true) :
    (stepA s i).state.alert_date = some i.today ∧
      s.alert_date ≠ some i.today := by
  revert h
  unfold stepA
  split_ifs <;> intro h <;> simp_all

/-- A Variant A step that fires no alert leaves `alert_date`
unchanged (no rule of the machine ever clears it). -/
theorem stepA_no_alert_keeps (s : AState) (i : AInput)
    (h : (stepA s i).alert = false) :
    (stepA s i).state.alert_date = s.alert_date := by
  revert h
  unfold stepA
  split_ifs <;> intro h <;> simp_all

/-- Once `alert_date` holds today's date, no further Variant A step of
the same day fires an alert. -/
theorem alertCountA_done (ins : List AInput) (t : ℤ) :
    ∀ s : AState, (∀ i ∈ ins, i.today = t) → s.alert_date = some t →
      alertCountA s ins = 0 := by
  induction ins with
  | nil => intro s _ _; rfl
  | cons i rest ih =>
    intro s hall hs
    have hit : i.today = t := hall i (List.mem_cons_self i rest)
    have hrest : ∀ j ∈ rest, j.today = t := fun j hj =>
      hall j (List.mem_cons_of_mem i hj)
    cases hb : (stepA s i).alert with
    | true =>
      have h2 := (stepA_alert_stamps s i hb).2
      rw [hit] at h2
      exact absurd hs h2
    | false =>
      have hz := ih (stepA s i).state hrest
        ((stepA_no_alert_keeps s i hb).trans hs)
      simp [alertCountA, hb, hz]

/-- At most one Variant A alert per calendar day. -/
theorem alertCountA_le_one (ins : List AInput) (t : ℤ) :
    ∀ s : AState, (∀ i ∈ ins, i.today = t) → alertCountA s ins ≤ 1 := by
  induction ins with
  | nil => intro s _; simp [alertCountA]
  | cons i rest ih =>
    intro s hall
    have hit : i.today = t := hall i (List.mem_cons_self i rest)
    have hrest : ∀ j ∈ rest, j.today = t := fun j hj =>
      hall j (List.mem_cons_of_mem i hj)
    cases hb : (stepA s i).alert with
    | false =>
      have := ih (stepA s i).state hrest
      simp [alertCountA, hb]
      omega
    | true =>
      have h1 := (stepA_alert_stamps s i hb).1
      rw [hit] at h1
      have hz := alertCountA_done rest t (stepA s i).state hrest h1
      simp [alertCountA, hb, hz]

/-- Variant B: stage 0 is absorbing (the 0→1 guard needs DIF < 0, which
the global reset intercepts first) and fires no alert. -/
theorem stepB_stage0_absorbing (s : BState) (i : BInput)
    (h : s.stage = some 0) :
    (stepB s i).state.stage = some 0 ∧ (stepB s i).alert = false := by
  unfold stepB
  rw [stepBInit_of_some s i 0 h]
  obtain ⟨st, md, ad, c1, c2⟩ := s
  cases h
  simp only [stepBMain]
  split_ifs <;> simp_all

/-- From stage 0, Variant B never alerts again. -/
theorem alertCountB_stage0 (ins : List BInput) :
    ∀ s : BState, s.stage = some 0 → alertCountB s ins = 0 := by
  induction ins with
  | nil => intro s _; rfl
  | cons i rest ih =>
    intro s h
    obtain ⟨h1, h2⟩ := stepB_stage0_absorbing s i h
    have hz := ih (stepB s i).state h1
    simp [alertCountB, h2, hz]

set_option maxHeartbeats 1600000 in
/-- A Variant B alert stamps today into `alert_date`, and can only fire
when no alert was already recorded for today. -/
theorem stepB_alert_stamps (s : BState) (i : BInput) :
    (stepB s i).alert = true →
    (stepB s i).state.alert_date = some i.today ∧
      s.alert_date ≠ some i.today := by
  have had := stepBInit_alert_date s i
  unfold stepB
  generalize hg : stepBInit s i = s0 at had ⊢
  obtain ⟨st, md, ad, c1, c2⟩ := s0
  cases st <;> simp only [stepBMain] <;> split_ifs <;> intro h <;> simp_all

set_option maxHeartbeats 1600000 in
/-- A Variant B step that fires no alert either leaves `alert_date`
unchanged or is a reset to stage 0. -/
theorem stepB_no_alert (s : BState) (i : BInput) :
    (stepB s i).alert = false →
    (stepB s i).state.alert_date = s.alert_date ∨
      (stepB s i).state.stage = some 0 := by
  have had := stepBInit_alert_date s i
  unfold stepB
  generalize hg : stepBInit s i = s0 at had ⊢
  obtain ⟨st, md, ad, c1, c2⟩ := s0
  cases st <;> simp only [stepBMain] <;> split_ifs <;> intro h <;> simp_all

/-- Once `alert_date` holds today's date, no further Variant B step of
the same day fires an alert (a reset can clear `alert_date`, but it
puts the machine into the absorbing stage 0). -/
theorem alertCountB_done (ins : List BInput) (t : ℤ) :
    ∀ s : BState, (∀ i ∈ ins, i.today = t) → s.alert_date = some t →
      alertCountB s ins = 0 := by
  induction ins with
  | nil => intro s _ _; rfl
  | cons i rest ih =>
    intro s hall hs
    have hit : i.today = t := hall i (List.mem_cons_self i rest)
    have hrest : ∀ j ∈ rest, j.today = t := fun j hj =>
      hall j (List.mem_cons_of_mem i hj)
    cases hb : (stepB s i).alert with
    | true =>
      have h2 := (stepB_alert_stamps s i hb).2
      rw [hit] at h2
      exact absurd hs h2
    | false =>
      have hz : alertCountB (stepB s i).state rest = 0 := by
        rcases stepB_no_alert s i hb with hkeep | hzero
        · exact ih (stepB s i).state hrest (hkeep.trans hs)
        · exact alertCountB_stage0 rest (stepB s i).state hzero
      simp [alertCountB, hb, hz]

/-- At most one Variant B alert per calendar day. -/
theorem alertCountB_le_one (ins : List BInput) (t : ℤ) :
    ∀ s : BState, (∀ i ∈ ins, i.today = t) → alertCountB s ins ≤ 1 := by
  induction ins with
  | nil => intro s _; simp [alertCountB]
  | cons i rest ih =>
    intro s hall
    have hit : i.today = t := hall i (List.mem_cons_self i rest)
    have hrest : ∀ j ∈ rest, j.today = t := fun j hj =>
      hall j (List.mem_cons_of_mem i hj)
    cases hb : (stepB s i).alert with
    | false =>
      have := ih (stepB s i).state hrest
      simp [alertCountB, hb]
      omega
    | true =>
      have h1 := (stepB_alert_stamps s i hb).1
      rw [hit] at h1
      have hz := alertCountB_done rest t (stepB s i).state hrest h1
      simp [alertCountB, hb, hz]

/-- C3: for a fixed ticker, any sequence of evaluation steps sharing
the same calendar day produces at most one alert, in both the 3-stage
and the 4-stage variant, whatever state the day starts in and even if
the triggering condition holds on every step. -/
theorem C3_alert_dedup (t : ℤ) (sA : AState) (insA : List AInput)
    (sB : BState) (insB : List BInput)
    (hA : ∀ i ∈ insA, i.today = t) (hB : ∀ i ∈ insB, i.today = t) :
    alertCountA sA insA ≤ 1 ∧ alertCountB sB insB ≤ 1 :=
  ⟨alertCountA_le_one insA t sA hA, alertCountB_le_one insB t sB hB⟩

/-- Witness for C3: a stage-2 Variant A ticker scanned twice on day 0
with the MACD-confirm condition holding both times (the alert fires on
the first scan only), and a stage-3 Variant B ticker scanned twice with
the retracement condition holding both times. -/
theorem C3_alert_dedup_witness :
    alertCountA
        { stage := 2, touch_date := some 0, rsi_min := 20, alert_date := none,
          stage_history := [(1, 0), (2, 0)] }
        [{ touched := false, rsi := 40, revFlag := false, confFlag := true,
           today := 0 },
         { touched := false, rsi := 40, revFlag := false, confFlag := true,
           today := 0 }] ≤ 1 ∧
    alertCountB
        { stage := some 3, max_dif := 8, alert_date := none,
          stage1_confirmed := true, stage2_confirmed := true }
        [{ difSeries := [6], deaSeries := [3], today := 0 },
         { difSeries := [6], deaSeries := [3], today := 0 }] ≤ 1 :=
  C3_alert_dedup 0
    { stage := 2, touch_date := some 0, rsi_min := 20, alert_date := none,
      stage_history := [(1, 0), (2, 0)] }
    [{ touched := false, rsi := 40, revFlag := false, confFlag := true,
       today := 0 },
     { touched := false, rsi := 40, revFlag := false, confFlag := true,
       today := 0 }]
    { stage := some 3, max_dif := 8, alert_date := none,
      stage1_confirmed := true, stage2_confirmed := true }
    [{ difSeries := [6], deaSeries := [3], today := 0 },
     { difSeries := [6], deaSeries := [3], today := 0 }]
    (by decide) (by decide)

/-- Shape invariant of the Variant A history log: at stage 0 it is
empty, and at stage k > 0 it holds exactly the entries S1, ..., Sk
appended at the corresponding transitions. -/
def histShape (s : AState) : Prop :=
  (s.stage = 0 ∧ s.stage_history = []) ∨
  (s.stage = 1 ∧ ∃ d1, s.stage_history = [(1, d1)]) ∨
  (s.stage = 2 ∧ ∃ d1 d2, s.stage_history = [(1, d1), (2, d2)]) ∨
  (s.stage = 3 ∧ ∃ d1 d2 d3, s.stage_history = [(1, d1), (2, d2), (3, d3)])

/-- Every reachable Variant A state satisfies the history-shape
invariant. -/
theorem reachA_histShape (s : AState) (h : ReachA s) : histShape s := by
  induction h with
  | init => exact Or.inl ⟨rfl, rfl⟩
  | step s i hs ih =>
    rcases ih with ⟨e, hh⟩ | ⟨e, d1, hh⟩ | ⟨e, d1, d2, hh⟩ | ⟨e, d1, d2, d3, hh⟩
    · by_cases ht : i.touched = true
      · refine Or.inr (Or.inl ⟨?_, i.today, ?_⟩) <;> simp [stepA, e, ht, hh]
      · refine Or.inl ⟨?_, ?_⟩ <;> simp [stepA, e, ht, hh]
    · by_cases hr : i.revFlag = true
      · refine Or.inr (Or.inr (Or.inl ⟨?_, d1, i.today, ?_⟩)) <;>
          simp [stepA, e, hr, hh]
      · by_cases hT : stage1Timeout s i = true
        · refine Or.inl ⟨?_, ?_⟩ <;> simp [stepA, e, hr, hT]
        · refine Or.inr (Or.inl ⟨?_, d1, ?_⟩) <;> simp [stepA, e, hr, hT, hh]
    · by_cases hc : i.confFlag = true
      · by_cases hal : s.alert_date ≠ some i.today
        · refine Or.inr (Or.inr (Or.inr ⟨?_, d1, d2, i.today, ?_⟩)) <;>
            simp [stepA, e, hc, hal, hh]
        · refine Or.inr (Or.inr (Or.inr ⟨?_, d1, d2, i.today, ?_⟩)) <;>
            simp [stepA, e, hc, hal, hh]
      · by_cases hT : stage2Timeout s i = true
        · refine Or.inl ⟨?_, ?_⟩ <;> simp [stepA, e, hc, hT]
        · refine Or.inr (Or.inr (Or.inl ⟨?_, d1, d2, ?_⟩)) <;>
            simp [stepA, e, hc, hT, hh]
    · by_cases hR : stage3Rearm s i = true
      · refine Or.inl ⟨?_, ?_⟩ <;> simp [stepA, e, hR]
      · refine Or.inr (Or.inr (Or.inr ⟨?_, d1, d2, d3, ?_⟩)) <;>
          simp [stepA, e, hR, hh]

/-- C10: in every reachable Variant A state with stage 2 the history
log is exactly [S1 entry, S2 entry]: it has at least two entries, its
last entry is the S2 entry, and the parse of the last entry
(`histLastDate`, modelling `stage_history[-1].split("_")[1]`) yields
that entry's date; moreover the 1→2 transition appends exactly
(2, today), so the parsed date is the date on which stage 2 was
entered. -/
theorem C10_stage2_history :
    (∀ s : AState, ReachA s → s.stage = 2 →
      2 ≤ s.stage_history.length ∧
      ∃ d1 d2, s.stage_history = [(1, d1), (2, d2)] ∧
        s.stage_history.getLast? = some (2, d2) ∧
        histLastDate s.stage_history = d2) ∧
    (∀ (s : AState) (i : AInput), s.stage = 1 → i.revFlag = true →
      (stepA s i).state.stage = 2 ∧
      (stepA s i).state.stage_history.getLast? = some (2, i.today) ∧
      histLastDate (stepA s i).state.stage_history = i.today) := by
  constructor
  · intro s hr e
    rcases reachA_histShape s hr with ⟨e0, _⟩ | ⟨e1, _⟩ |
      ⟨e2, d1, d2, hh⟩ | ⟨e3, _⟩
    · omega
    · omega
    · exact ⟨by rw [hh]; simp, d1, d2, hh, by rw [hh]; rfl,
        by rw [hh]; rfl⟩
    · omega
  · intro s i e hr
    refine ⟨?_, ?_, ?_⟩ <;>
      simp [stepA, e, hr, histLastDate, List.getLast?_concat]

/-- Witness for C10: starting from the initial state, a band touch on
day 0 and an RSI reversal on day 1 reach stage 2; both parts of the
theorem are applied to that concrete trace. -/
theorem C10_stage2_history_witness :
    (2 ≤ (stepA (stepA initStateA
        { touched := true, rsi := 25, revFlag := false, confFlag := false,
          today := 0 }).state
        { touched := false, rsi := 35, revFlag := true, confFlag := false,
          today := 1 }).state.stage_history.length ∧
      ∃ d1 d2, (stepA (stepA initStateA
        { touched := true, rsi := 25, revFlag := false, confFlag := false,
          today := 0 }).state
        { touched := false, rsi := 35, revFlag := true, confFlag := false,
          today := 1 }).state.stage_history = [(1, d1), (2, d2)] ∧
        (stepA (stepA initStateA
        { touched := true, rsi := 25, revFlag := false, confFlag := false,
          today := 0 }).state
        { touched := false, rsi := 35, revFlag := true, confFlag := false,
          today := 1 }).state.stage_history.getLast? = some (2, d2) ∧
        histLastDate (stepA (stepA initStateA
        { touched := true, rsi := 25, revFlag := false, confFlag := false,
          today := 0 }).state
        { touched := false, rsi := 35, revFlag := true, confFlag := false,
          today := 1 }).state.stage_history = d2) ∧
    ((stepA (stepA initStateA
        { touched := true, rsi := 25, revFlag := false, confFlag := false,
          today := 0 }).state
        { touched := false, rsi := 35, revFlag := true, confFlag := false,
          today := 1 }).state.stage = 2 ∧
      (stepA (stepA initStateA
        { touched := true, rsi := 25, revFlag := false, confFlag := false,
          today := 0 }).state
        { touched := false, rsi := 35, revFlag := true, confFlag := false,
          today := 1 }).state.stage_history.getLast? = some (2, 1) ∧
      histLastDate (stepA (stepA initStateA
        { touched := true, rsi := 25, revFlag := false, confFlag := false,
          today := 0 }).state
        { touched := false, rsi := 35, revFlag := true, confFlag := false,
          today := 1 }).state.stage_history = 1) :=
  ⟨C10_stage2_history.1 _
      (ReachA.step _ _ (ReachA.step _ _ ReachA.init)) (by decide),
   C10_stage2_history.2 (stepA initStateA
      { touched := true, rsi := 25, revFlag := false, confFlag := false,
        today := 0 }).state
      { touched := false, rsi := 35, revFlag := true, confFlag := false,
        today := 1 } (by decide) rfl⟩

/-! ## Lemmas for the RSI claim -/

/-- Entry of a `(List.range n).map f` list. -/
theorem getD_range_map {α : Type} (f : ℕ → α) (n j : ℕ) (d : α) (h : j < n) :
    ((List.range n).map f).getD j d = f j := by
  rw [List.getD_eq_getElem?_getD, List.getElem?_map, List.getElem?_range h]
  rfl

theorem gains_length (prices : List ℚ) :
    (gains prices).length = prices.length := by
  simp [gains]

theorem losses_length (prices : List ℚ) :
    (losses prices).length = prices.length := by
  simp [losses]

theorem rollMean_length (xs : List ℚ) (period : ℕ) :
    (rollMean xs period).length = xs.length := by
  simp [rollMean]

/-- Entry of the rolling mean at a valid index. -/
theorem rollMean_getD (xs : List ℚ) (period j : ℕ) (h : j < xs.length) :
    (rollMean xs period).getD j FVal.nan =
      if j + 1 < period then FVal.nan
      else FVal.fin ((((xs.drop (j + 1 - period)).take period).sum)
        / (period : ℚ)) :=
  getD_range_map _ _ _ _ h

/-- Entry of the RSI series at a valid index. -/
theorem calculate_rsi_getD (prices : List ℚ) (period j : ℕ)
    (h : j < prices.length) :
    (calculate_rsi prices period).getD j FVal.nan =
      rsiPoint ((rollMean (gains prices) period).getD j FVal.nan)
        ((rollMean (losses prices) period).getD j FVal.nan) :=
  getD_range_map _ _ _ _ h

/-- When the average loss is exactly zero but the average gain is not,
the division chain evaluates through a signed infinity and the RSI
comes out exactly 100. -/
theorem rsiPoint_no_loss (q : ℚ) (hq : q ≠ 0) :
    rsiPoint (FVal.fin q) (FVal.fin 0) = FVal.fin 100 := by
  have hdiv : FVal.div (FVal.fin q) (FVal.fin 0)
      = if 0 < q then FVal.inf else FVal.ninf := by
    simp [FVal.div, hq]
  unfold rsiPoint
  rw [hdiv]
  rcases lt_or_gt_of_ne hq with hlt | hgt
  · rw [if_neg (not_lt.mpr (le_of_lt hlt))]
    simp only [FVal.sub, FVal.add, FVal.neg, FVal.div]
    norm_num
  · rw [if_pos hgt]
    simp only [FVal.sub, FVal.add, FVal.neg, FVal.div]
    norm_num

/-- The gain series of a constant price series is all zeros. -/
theorem gains_replicate (n : ℕ) (c : ℚ) :
    gains (List.replicate n c) = List.replicate n 0 := by
  unfold gains
  rw [List.length_replicate]
  apply List.ext_getElem
  · simp
  · intro j h1 h2
    rw [List.getElem_map, List.getElem_range, List.getElem_replicate]
    by_cases hj : j = 0
    · simp [hj]
    · have hjn : j < n := by simpa using h1
      have hj1 : j - 1 < n := by omega
      rw [if_neg hj]
      rw [List.getD_eq_getElem?_getD, List.getElem?_replicate, if_pos hjn]
      rw [List.getD_eq_getElem?_getD, List.getElem?_replicate, if_pos hj1]
      simp

/-- The loss series of a constant price series is all zeros. -/
theorem losses_replicate (n : ℕ) (c : ℚ) :
    losses (List.replicate n c) = List.replicate n 0 := by
  unfold losses
  rw [List.length_replicate]
  apply List.ext_getElem
  · simp
  · intro j h1 h2
    rw [List.getElem_map, List.getElem_range, List.getElem_replicate]
    by_cases hj : j = 0
    · simp [hj]
    · have hjn : j < n := by simpa using h1
      have hj1 : j - 1 < n := by omega
      rw [if_neg hj]
      rw [List.getD_eq_getElem?_getD, List.getElem?_replicate, if_pos hj1]
      rw [List.getD_eq_getElem?_getD, List.getElem?_replicate, if_pos hjn]
      simp

/-- Rolling mean of an all-zero 15-bar series at position 14. -/
theorem rollMean_zero15 :
    (rollMean (List.replicate 15 (0:ℚ)) 14).getD 14 FVal.nan = FVal.fin 0 := by
  rw [rollMean_getD _ _ _ (by simp)]
  rw [if_neg (by omega)]
  norm_num [List.drop_replicate, List.take_replicate]

/-- C8 counterexample: on a constant 15-bar price series the 14-bar
rolling average loss at position 14 is exactly zero, yet the RSI there
is NaN (the code computes `rs = 0/0`), not 100; the division-by-zero
guard the claim describes does not exist in the code. -/
theorem C8_flat_window_counterexample :
    (rollMean (losses (List.replicate 15 (10:ℚ))) 14).getD 14 FVal.nan
      = FVal.fin 0 ∧
    (calculate_rsi (List.replicate 15 (10:ℚ)) 14).getD 14 FVal.nan
      = FVal.nan ∧
    (calculate_rsi (List.replicate 15 (10:ℚ)) 14).getD 14 FVal.nan
      ≠ FVal.fin 100 := by
  have hL : losses (List.replicate 15 (10:ℚ)) = List.replicate 15 0 :=
    losses_replicate 15 10
  have hG : gains (List.replicate 15 (10:ℚ)) = List.replicate 15 0 :=
    gains_replicate 15 10
  refine ⟨by rw [hL]; exact rollMean_zero15, ?_, ?_⟩
  · rw [calculate_rsi_getD _ _ _ (by simp), hL, hG, rollMean_zero15]
    rfl
  · rw [calculate_rsi_getD _ _ _ (by simp), hL, hG, rollMean_zero15]
    decide

/-- C8 amended: at every position (necessarily past the warm-up) where
the 14-bar rolling average loss is exactly zero and the rolling average
gain is nonzero, the RSI is exactly 100 (the float division by zero
produces an infinity, and 100 - 100/(1+inf) = 100); when the average
gain is zero as well (a flat window) the result is NaN instead. -/
theorem C8_rsi_100_when_loss_zero (prices : List ℚ) (j : ℕ) (q : ℚ)
    (hl : (rollMean (losses prices) 14).getD j FVal.nan = FVal.fin 0)
    (hg : (rollMean (gains prices) 14).getD j FVal.nan = FVal.fin q)
    (hq : q ≠ 0) :
    (calculate_rsi prices 14).getD j FVal.nan = FVal.fin 100 := by
  have hj : j < prices.length := by
    by_contra hc
    push_neg at hc
    rw [List.getD_eq_default _ _
      (by rw [rollMean_length, losses_length]; exact hc)] at hl
    exact FVal.noConfusion hl
  rw [calculate_rsi_getD _ _ _ hj, hl, hg]
  exact rsiPoint_no_loss q hq

/-- The gain series of the strictly ascending price series 0,1,...,14. -/
theorem gains_ascending :
    gains ((List.range 15).map (Nat.cast : ℕ → ℚ))
      = 0 :: List.replicate 14 1 := by
  unfold gains
  rw [List.length_map, List.length_range]
  apply List.ext_getElem
  · simp
  · intro j h1 h2
    rw [List.getElem_map, List.getElem_range]
    by_cases hj : j = 0
    · subst hj; simp
    · have hjn : j < 15 := by simpa using h1
      have hj1 : j - 1 < 15 := by omega
      rw [if_neg hj]
      rw [getD_range_map _ _ _ _ hjn, getD_range_map _ _ _ _ hj1]
      have h1le : 1 ≤ j := Nat.one_le_iff_ne_zero.mpr hj
      have hcast : ((j - 1 : ℕ) : ℚ) = (j : ℚ) - 1 := by
        push_cast [h1le]
        ring
      rw [hcast, show (j:ℚ) - ((j:ℚ) - 1) = 1 by ring]
      rcases Nat.exists_eq_succ_of_ne_zero hj with ⟨m, rfl⟩
      rw [List.getElem_cons_succ, List.getElem_replicate]
      norm_num

/-- The loss series of the strictly ascending price series. -/
theorem losses_ascending :
    losses ((List.range 15).map (Nat.cast : ℕ → ℚ))
      = List.replicate 15 0 := by
  unfold losses
  rw [List.length_map, List.length_range]
  apply List.ext_getElem
  · simp
  · intro j h1 h2
    rw [List.getElem_map, List.getElem_range, List.getElem_replicate]
    by_cases hj : j = 0
    · simp [hj]
    · have hjn : j < 15 := by simpa using h1
      have hj1 : j - 1 < 15 := by omega
      rw [if_neg hj]
      rw [getD_range_map _ _ _ _ hj1, getD_range_map _ _ _ _ hjn]
      have h1le : 1 ≤ j := Nat.one_le_iff_ne_zero.mpr hj
      have hcast : ((j - 1 : ℕ) : ℚ) = (j : ℚ) - 1 := by
        push_cast [h1le]
        ring
      rw [hcast]
      have hle : (j:ℚ) - 1 - (j:ℚ) ≤ 0 := by norm_num
      rw [max_eq_right hle]

/-- Rolling mean of the ascending gain series at position 14. -/
theorem rollMean_ascending_gains :
    (rollMean (0 :: List.replicate 14 (1:ℚ)) 14).getD 14 FVal.nan
      = FVal.fin 1 := by
  rw [rollMean_getD _ _ _ (by simp)]
  rw [if_neg (by omega)]
  norm_num [List.take_replicate, List.sum_replicate]

/-- Witness for the amended C8: on the ascending series 0,1,...,14 the
average loss at position 14 is 0, the average gain is 1, and the RSI is
exactly 100. -/
theorem C8_rsi_100_when_loss_zero_witness :
    (rollMean (losses ((List.range 15).map (Nat.cast : ℕ → ℚ))) 14).getD 14
      FVal.nan = FVal.fin 0 ∧
    (rollMean (gains ((List.range 15).map (Nat.cast : ℕ → ℚ))) 14).getD 14
      FVal.nan = FVal.fin 1 ∧
    (calculate_rsi ((List.range 15).map (Nat.cast : ℕ → ℚ)) 14).getD 14
      FVal.nan = FVal.fin 100 := by
  have h1 : (rollMean (losses ((List.range 15).map (Nat.cast : ℕ → ℚ))) 14).getD
      14 FVal.nan = FVal.fin 0 := by
    rw [losses_ascending]
    exact rollMean_zero15
  have h2 : (rollMean (gains ((List.range 15).map (Nat.cast : ℕ → ℚ))) 14).getD
      14 FVal.nan = FVal.fin 1 := by
    rw [gains_ascending]
    exact rollMean_ascending_gains
  exact ⟨h1, h2, C8_rsi_100_when_loss_zero _ _ _ h1 h2 (by norm_num)⟩

end SignalWatch
